import Mathlib

/-!
Shallow embedding of the whatsappUtilities backend
(src/backend/app): the message data model (models/message.py),
the webhook normalizer and provider client (services/whatsapp.py),
and the HTTP routes that the claims touch
(routes/messages.py, routes/webhooks.py).

Python values flowing through the webhook parser are modelled by the
`Json` inductive; Python operations that can raise are modelled as
`Option`-returning functions, and the bare `try/except` wrappers in the
source become the `Option` monad (an exception anywhere yields `none`).
Timestamps are modelled as `Int` Unix epoch seconds; `datetime.now()`
becomes an explicit `now : Int` parameter.
-/

set_option autoImplicit false

namespace WhatsappUtil

/-- JSON-like Python value, as produced by `json.loads` on a webhook body.
Object keys are unique (as `json.loads` guarantees: a duplicate key is
overwritten), so association-list lookup of the first match is faithful. -/
inductive Json where
  | null
  | bool (b : Bool)
  | num (n : Int)
  | str (s : String)
  | arr (elts : List Json)
  | obj (fields : List (String × Json))
deriving Repr

/-- Python truthiness (`if not entry: ...`) on JSON-shaped values:
`None`, `False`, `0`, `""`, `[]`, `{}` are falsy. -/
def truthy : Json → Bool
  | .null => false
  | .bool b => b
  | .num n => n != 0
  | .str s => s != ""
  | .arr xs => !xs.isEmpty
  | .obj fs => !fs.isEmpty

/-- Python `d.get(k, default)`: on a dict, the value when the key is
present, the default otherwise; on any non-dict it raises
`AttributeError` (modelled as `none`, absorbed by the callers'
`try/except`). -/
def pyGet (j : Json) (k : String) (default : Json) : Option Json :=
  match j with
  | .obj fs => some ((fs.lookup k).getD default)
  | _ => none

/-- Python `x[0]`: the first element of a non-empty list, the first
character of a non-empty string; anything else raises (`IndexError` on
empty sequences, `TypeError`/`KeyError` on other values), modelled as
`none`. -/
def pyIndex0 : Json → Option Json
  | .arr (x :: _) => some x
  | .str s => if s.isEmpty then none else some (.str s.front.toString)
  | _ => none

/-- Python `x == "lit"` where `x` is an arbitrary object: true exactly
when `x` is that string (comparing a non-string to a string is `False`,
never an error). -/
def pyEqStr (j : Json) (lit : String) : Bool :=
  match j with
  | .str s => s == lit
  | _ => false

/-- ASCII whitespace stripped by Python `int()` from a string argument. -/
def pySpace (c : Char) : Bool :=
  c = ' ' || c = '\t' || c = '\n' || c = '\r' || c = '\x0b' || c = '\x0c'

/-- Value of a non-empty all-digit ASCII string. -/
def digitsToNat (cs : List Char) : Option Nat :=
  if cs.isEmpty || !cs.all Char.isDigit then none
  else some (cs.foldl (fun acc c => acc * 10 + (c.toNat - 48)) 0)

/-- Python `int(s)` on the timestamp value, restricted to the shapes a
webhook carries: an ASCII-decimal string with optional sign and
surrounding whitespace, or a number; everything else raises (modelled as
`none`, which the parser's bare `except:` turns into the `now` fallback). -/
def pyInt : Json → Option Int
  | .num n => some n
  | .str s =>
    match ((s.toList.dropWhile pySpace).reverse.dropWhile pySpace).reverse with
    | '-' :: rest => (digitsToNat rest).map (fun n => -(n : Int))
    | '+' :: rest => (digitsToNat rest).map (fun n => (n : Int))
    | rest => (digitsToNat rest).map (fun n => (n : Int))
  | _ => none

/-- MessageType enum (models/message.py): the closed set of supported
message types; `MessageType(value)` on any other value raises
`ValueError`. -/
inductive MessageType where
  | text
  | audio
  | document
  | image
  | video
deriving DecidableEq, Repr

/-- Python `MessageType(value)` for a string value: `none` models the
`ValueError` raised on an unrecognized type. -/
def messageTypeOfString : String → Option MessageType
  | "text" => some .text
  | "audio" => some .audio
  | "document" => some .document
  | "image" => some .image
  | "video" => some .video
  | _ => none

def MessageType.toValue : MessageType → String
  | .text => "text"
  | .audio => "audio"
  | .document => "document"
  | .image => "image"
  | .video => "video"

/-- MessageStatus enum (models/message.py). -/
inductive MessageStatus where
  | sent
  | delivered
  | read
  | failed
  | pending
deriving DecidableEq, Repr

/-- Pydantic model ReceivedMessage (models/message.py): `message_id`,
`from_number` are required strings (the empty string is accepted),
`text`/`media_url`/`media_id` are optional strings, `timestamp` is a
datetime (epoch seconds here). -/
structure ReceivedMessage where
  message_id : String
  from_number : String
  message_type : MessageType
  text : Option String
  media_url : Option String
  media_id : Option String
  timestamp : Int
  status : MessageStatus
deriving DecidableEq, Repr

/-- Pydantic model SendMessageResponse (models/message.py). -/
structure SendMessageResponse where
  message_id : String
  status : MessageStatus
  timestamp : Int
deriving DecidableEq, Repr

/-- Pydantic model SendMessageRequest (models/message.py). -/
structure SendMessageRequest where
  «to» : String
  message_type : MessageType
  text : Option String
  media_url : Option String
  media_caption : Option String
deriving DecidableEq, Repr

/-- Pydantic validation of an `Optional[str]` field: a JSON value that
reached the field must be a string (`none` models the `ValidationError`
raised otherwise, absorbed by the parser's outer `try/except`). -/
def asOptStr : Option Json → Option (Option String)
  | none => some none
  | some (.str s) => some (some s)
  | some _ => none

/-- Pydantic validation of a required `str` field. -/
def asStr : Json → Option String
  | .str s => some s
  | _ => none

/-- The `entry[0].changes[0].value.messages[0]` navigation of
`parse_webhook_message` (services/whatsapp.py lines 158-172), with the
source's `if not x: return None` truthiness guards; any raised exception
is `none`. -/
def firstMessage (webhook_data : Json) : Option Json :=
  (pyGet webhook_data "entry" (.arr [])).bind fun entry =>
  if !truthy entry then none else
  (pyIndex0 entry).bind fun e0 =>
  (pyGet e0 "changes" (.arr [])).bind fun changes =>
  if !truthy changes then none else
  (pyIndex0 changes).bind fun c0 =>
  (pyGet c0 "value" (.obj [])).bind fun value =>
  (pyGet value "messages" (.arr [])).bind fun messages =>
  if !truthy messages then none else
  pyIndex0 messages

/-- The type-dispatched content extraction of `parse_webhook_message`
(services/whatsapp.py lines 186-197): on `message_type == "text"` read
`text.body`; on a media type read the type-named nested object's `id`,
`link` and `caption` (defaults `""`); on any other type the three values
stay `None`. The result triple is (text, media_url, media_id). -/
def extractContent (message typeJ : Json) : Option (Option Json × Option Json × Option Json) :=
  if pyEqStr typeJ "text" then
    (pyGet message "text" (.obj [])).bind fun tObj =>
    (pyGet tObj "body" (.str "")).bind fun body =>
    some (some body, none, none)
  else if pyEqStr typeJ "audio" || pyEqStr typeJ "document"
      || pyEqStr typeJ "image" || pyEqStr typeJ "video" then
    (pyGet message (match typeJ with | .str s => s | _ => "") (.obj [])).bind fun media_data =>
    (pyGet media_data "id" (.str "")).bind fun mid =>
    (pyGet media_data "link" (.str "")).bind fun murl =>
    (pyGet media_data "caption" (.str "")).bind fun cap =>
    some (some cap, some murl, some mid)
  else
    some (none, none, none)

/-- The `ReceivedMessage(...)` construction of `parse_webhook_message`
(services/whatsapp.py lines 199-208): `MessageType(message_type)` raises
on an unrecognized type string and pydantic validates each field; any
failure is absorbed into `None` by the outer `try/except`. -/
def buildReceived (idJ fromJ typeJ : Json)
    (content : Option Json × Option Json × Option Json) (dt : Int) : Option ReceivedMessage :=
  (match typeJ with | .str t => messageTypeOfString t | _ => none).bind fun message_type =>
  (asStr idJ).bind fun message_id =>
  (asStr fromJ).bind fun from_number =>
  (asOptStr content.1).bind fun text =>
  (asOptStr content.2.1).bind fun media_url =>
  (asOptStr content.2.2).bind fun media_id =>
  some { message_id := message_id
         from_number := from_number
         message_type := message_type
         text := text
         media_url := media_url
         media_id := media_id
         timestamp := dt
         status := .delivered }

/-- Embeds `WhatsAppService.parse_webhook_message` (services/whatsapp.py lines
155-212): normalizes a raw webhook payload to at most one
ReceivedMessage; the surrounding `try/except` converts every exception
into `None`. `now` stands for `datetime.now()`, the fallback when the
timestamp does not parse. -/
def parse_webhook_message (webhook_data : Json) (now : Int) : Option ReceivedMessage :=
  (firstMessage webhook_data).bind fun message =>
  (pyGet message "id" (.str "")).bind fun idJ =>
  (pyGet message "from" (.str "")).bind fun fromJ =>
  (pyGet message "timestamp" (.str "")).bind fun tsJ =>
  (pyGet message "type" (.str "text")).bind fun typeJ =>
  (extractContent message typeJ).bind fun content =>
  buildReceived idJ fromJ typeJ content ((pyInt tsJ).getD now)

/-- Outcome of the `httpx` POST in the provider client, abstracting the
network: a 2xx response with its JSON body, a 4xx/5xx response (where
`response.raise_for_status()` raises `httpx.HTTPStatusError`; `text` is
`e.response.text`, the raw provider error body), or a transport-level
failure (timeout, connection refused; `msg` is `str(e)`). -/
inductive HttpOutcome where
  | success (body : Json)
  | statusError (status : Nat) (text : String)
  | transport (msg : String)

/-- Result of a provider-client send call. Both failure paths of the
source `raise Exception(msg)` — one bare exception type for both, so the
result carries only the message string. -/
inductive SendResult where
  | ok (resp : SendMessageResponse)
  | exc (msg : String)
deriving DecidableEq, Repr

/-- Extraction `data["messages"][0]["id"]` on the provider's 2xx JSON body
(services/whatsapp.py line 45/88): the id on the expected shape,
otherwise `str(e)` of the exception Python raises (CPython 3.11
wordings; the non-str-id case is pydantic validation, whose long message
is abbreviated here — no claim depends on these branches). -/
def extract_message_id (data : Json) : Except String String :=
  match data with
  | .obj fs =>
    match fs.lookup "messages" with
    | none => .error "'messages'"
    | some (.arr []) => .error "list index out of range"
    | some (.arr (m :: _)) =>
      match m with
      | .obj mfs =>
        match mfs.lookup "id" with
        | none => .error "'id'"
        | some (.str s) => .ok s
        | some _ => .error "1 validation error for SendMessageResponse"
      | .arr _ => .error "list indices must be integers or slices, not str"
      | .str _ => .error "string indices must be integers, not 'str'"
      | _ => .error "object is not subscriptable"
    | some (.str "") => .error "string index out of range"
    | some (.str _) => .error "string indices must be integers, not 'str'"
    | some (.obj _) => .error "0"
    | some _ => .error "object is not subscriptable"
  | .arr _ => .error "list indices must be integers or slices, not str"
  | .str _ => .error "string indices must be integers, not 'str'"
  | _ => .error "object is not subscriptable"

/-- Embeds `WhatsAppService.send_text_message` (services/whatsapp.py lines
21-58). The request payload is
`{"messaging_product":"whatsapp","to":to,"type":"text","text":{"body":text}}`;
`outcome` abstracts the HTTP exchange. On `httpx.HTTPStatusError` the
source raises `Exception("Failed to send message: " + e.response.text)`;
on any other exception it raises
`Exception("Failed to send message: " + str(e))`. -/
def send_text_message («to» text : String) (outcome : HttpOutcome) (now : Int) : SendResult :=
  match outcome with
  | .success body =>
    match extract_message_id body with
    | .ok mid => .ok { message_id := mid, status := .sent, timestamp := now }
    | .error e => .exc ("Failed to send message: " ++ e)
  | .statusError _ text => .exc ("Failed to send message: " ++ text)
  | .transport m => .exc ("Failed to send message: " ++ m)

/-- The outbound payload dict built by `send_media_message`
(services/whatsapp.py lines 64-75), in Python dict insertion order:
`{"messaging_product":"whatsapp","to":to,"type":media_type,media_type:{"link":media_url}}`,
with `"caption"` appended to the inner object only when `caption` is
truthy (a non-None, non-empty string) and `media_type` is one of
document/image/video. -/
def send_media_payload («to» media_type media_url : String) (caption : Option String) : Json :=
  let base := [("link", Json.str media_url)]
  let inner :=
    match caption with
    | some c =>
      if c != "" && (media_type == "document" || media_type == "image" || media_type == "video")
      then base ++ [("caption", Json.str c)]
      else base
    | none => base
  .obj [("messaging_product", .str "whatsapp"), ("to", .str «to»),
        ("type", .str media_type), (media_type, .obj inner)]

/-- Embeds `WhatsAppService.send_media_message` (services/whatsapp.py lines
60-101): same structure as `send_text_message`, with the payload of
`send_media_payload` and the error prefix "Failed to send media
message: ". -/
def send_media_message («to» media_type media_url : String) (caption : Option String)
    (outcome : HttpOutcome) (now : Int) : SendResult :=
  match outcome with
  | .success body =>
    match extract_message_id body with
    | .ok mid => .ok { message_id := mid, status := .sent, timestamp := now }
    | .error e => .exc ("Failed to send media message: " ++ e)
  | .statusError _ text => .exc ("Failed to send media message: " ++ text)
  | .transport m => .exc ("Failed to send media message: " ++ m)

/-- FastAPI route response: a JSON dict, a `PlainTextResponse`, a
pydantic response model, or a raised `HTTPException(code, detail)`. -/
inductive ApiResponse where
  | jsonBody (body : Json)
  | plainText (s : String)
  | modelBody (resp : SendMessageResponse)
  | httpError (code : Nat) (detail : String)
deriving Repr

/-- Embeds `verify_webhook` (routes/webhooks.py lines 13-31), `verify_token`
being `settings.WHATSAPP_WEBHOOK_VERIFY_TOKEN`. On a match the challenge
is echoed as a `PlainTextResponse`. On a mismatch the source raises
`HTTPException(403, "Forbidden")` inside the `try`; that exception is
caught by the enclosing `except Exception as e` and re-raised as
`HTTPException(500, str(e))`, and `str` of a starlette `HTTPException`
is "403: Forbidden" — so the mismatch response is a 500, not the 403 the
raise intended. -/
def verify_webhook (hub_mode hub_challenge hub_verify_token verify_token : String) : ApiResponse :=
  if hub_mode == "subscribe" && hub_verify_token == verify_token
  then .plainText hub_challenge
  else .httpError 500 "403: Forbidden"

/-- Embeds `add_received_message` (routes/messages.py lines 182-186):
`received_messages.append(message)`. -/
def add_received_message (store : List ReceivedMessage) (message : ReceivedMessage) :
    List ReceivedMessage :=
  store ++ [message]

/-- Embeds `receive_webhook` (routes/webhooks.py lines 33-71). `body = none`
models a POST body on which `json.loads` raises `JSONDecodeError`, which
the route answers with `HTTPException(400, "Invalid JSON")`; a decoded
body goes through `parse_webhook_message`, whose `some` result is
appended to the store. Either way the route then returns
`{"status": "ok"}`. The `download_media` call for media messages
swallows its own errors and touches neither the store nor the response,
so it is not modelled; the trailing `except Exception` branch is
unreachable from this handler body. -/
def receive_webhook (store : List ReceivedMessage) (body : Option Json) (now : Int) :
    List ReceivedMessage × ApiResponse :=
  match body with
  | none => (store, .httpError 400 "Invalid JSON")
  | some data =>
    match parse_webhook_message data now with
    | some message =>
      (add_received_message store message, .jsonBody (.obj [("status", .str "ok")]))
    | none => (store, .jsonBody (.obj [("status", .str "ok")]))

/-- Python truthiness of an `Optional[str]` (`if not request.text`). -/
def pyOptStrFalsy : Option String → Bool
  | none => true
  | some s => s == ""

/-- Embeds `send_message` (routes/messages.py lines 20-51). The validation
failures raise `HTTPException(400, detail)` inside the `try`; the
enclosing `except Exception as e` catches them and re-raises
`HTTPException(500, str(e))` with `str(e) = "400: " ++ detail` — so they
surface as 500s. Provider-client exceptions likewise become 500s with
the exception text. The final `else: 400 Unsupported message type`
branch is unreachable because `MessageType` is a closed enum. -/
def send_message (request : SendMessageRequest) (outcome : HttpOutcome) (now : Int) : ApiResponse :=
  match request.message_type with
  | .text =>
    if pyOptStrFalsy request.text
    then .httpError 500 "400: Text content is required for text messages"
    else
      match send_text_message request.«to» (request.text.getD "") outcome now with
      | .ok r => .modelBody r
      | .exc m => .httpError 500 m
  | mt =>
    if pyOptStrFalsy request.media_url
    then .httpError 500 "400: Media URL is required for media messages"
    else
      match send_media_message request.«to» mt.toValue (request.media_url.getD "")
          request.media_caption outcome now with
      | .ok r => .modelBody r
      | .exc m => .httpError 500 m

/-- Pydantic model MessageListResponse (models/message.py). -/
structure MessageListResponse where
  messages : List ReceivedMessage
  total : Nat
deriving DecidableEq, Repr

/-- CPython `PySlice_AdjustIndices` for step 1: a negative slice index
counts from the end of the sequence and is clamped below at 0
(`Int.toNat` clamps); a non-negative one is clamped above at the
length. -/
def pyIdx (n : Nat) (i : Int) : Nat :=
  if i < 0 then (n + i).toNat else min i.toNat n

/-- Python list slicing `xs[start:stop]` with step 1: both endpoints are
adjusted by `pyIdx`, and an empty slice results when `stop ≤ start`
(truncated `Nat` subtraction). -/
def pySlice {α : Type} (xs : List α) (start stop : Int) : List α :=
  let s := pyIdx xs.length start
  let e := pyIdx xs.length stop
  (xs.drop s).take (e - s)

/-- Embeds `get_messages` (routes/messages.py lines 89-101):
`received_messages[offset:offset + limit]` with
`total = len(received_messages)`. Slicing never raises, so the
`except Exception` branch is unreachable. -/
def get_messages (store : List ReceivedMessage) (limit offset : Int) : MessageListResponse :=
  { messages := pySlice store offset (offset + limit)
    total := store.length }

/-- Convenience constructor for test payloads: a webhook body whose
`entry[0].changes[0].value.messages[0]` is the object with the given
fields. -/
def msgPayload (fields : List (String × Json)) : Json :=
  .obj [("entry", .arr [.obj [("changes", .arr [.obj [("value",
    .obj [("messages", .arr [.obj fields])])]])]])]

/-- Sample received message used by pagination witnesses. -/
def sampleMsgA : ReceivedMessage :=
  { message_id := "a1", from_number := "15550001", message_type := .text,
    text := some "first", media_url := none, media_id := none,
    timestamp := 1, status := .delivered }

/-- Second sample received message used by pagination witnesses. -/
def sampleMsgB : ReceivedMessage :=
  { message_id := "b2", from_number := "15550002", message_type := .text,
    text := some "second", media_url := none, media_id := none,
    timestamp := 2, status := .delivered }

/-- Webhook payload whose only message omits both `id` and `from`
(status-less text message). -/
def noIdPayload : Json :=
  msgPayload [("type", .str "text"), ("text", .obj [("body", .str "hi")])]

/-- Webhook payload whose message has the unsupported type "sticker". -/
def stickerPayload : Json :=
  msgPayload [("id", .str "m2"), ("from", .str "15550001"),
              ("timestamp", .str "1700000000"), ("type", .str "sticker")]

/-- The valid text webhook payload of the spec's scenario. -/
def textScenarioPayload : Json :=
  msgPayload [("id", .str "m1"), ("from", .str "15550001"),
              ("timestamp", .str "1700000000"), ("type", .str "text"),
              ("text", .obj [("body", .str "hi")])]

/-- An image webhook payload whose nested object carries only `id`
(no `link`, no `caption`). -/
def imageScenarioPayload : Json :=
  msgPayload [("id", .str "m3"), ("from", .str "15550001"),
              ("timestamp", .str "1700000001"), ("type", .str "image"),
              ("image", .obj [("id", .str "media9")])]

/- ------------------------------------------------------------------
Theorems.
------------------------------------------------------------------ -/

/-- Appending via `add_received_message` starting from a given store is
list concatenation. -/
theorem foldl_add_received_message (msgs : List ReceivedMessage) (init : List ReceivedMessage) :
    msgs.foldl add_received_message init = init ++ msgs := by
  induction msgs generalizing init with
  | nil => simp
  | cons m rest ih => simp [add_received_message, ih, List.append_assoc]

/-- Clamped drop-take: the slice formula with both endpoints clamped to
the list length coincides with plain drop-then-take. -/
theorem drop_take_clamp {α : Type} (xs : List α) (a b : Nat) :
    (xs.drop (min a xs.length)).take (min (a + b) xs.length - min a xs.length)
      = (xs.drop a).take b := by
  by_cases h : xs.length ≤ a
  · rw [min_eq_right h, List.drop_length, List.drop_eq_nil_of_le h]
    simp
  · push_neg at h
    rw [min_eq_left h.le, List.take_eq_take]
    rw [List.length_drop]
    omega

/-- For non-negative offset and limit, `pySlice xs offset (offset+limit)`
is drop-then-take. -/
theorem pySlice_nonneg {α : Type} (xs : List α) (o l : Int) (ho : 0 ≤ o) (hl : 0 ≤ l) :
    pySlice xs o (o + l) = (xs.drop o.toNat).take l.toNat := by
  have h1 : ¬ o < 0 := not_lt.mpr ho
  have h2 : ¬ o + l < 0 := by omega
  have h3 : (o + l).toNat = o.toNat + l.toNat := by omega
  simp only [pySlice, pyIdx, if_neg h1, if_neg h2, h3]
  exact drop_take_clamp xs o.toNat l.toNat

/-- C9: for every sequence of appended messages and every non-negative
limit and offset, `get_messages` returns the slice
`[offset, offset+limit)` of the insertion-ordered store with `total`
equal to the full store size; in particular `limit = N, offset = 0`
returns everything in insertion order, and any `offset ≥ N` yields an
empty list while `total` is still `N`. -/
theorem get_messages_pagination (msgs : List ReceivedMessage) (limit offset : Int)
    (hl : 0 ≤ limit) (ho : 0 ≤ offset) :
    (get_messages (msgs.foldl add_received_message []) limit offset).messages
        = (msgs.drop offset.toNat).take limit.toNat ∧
    (get_messages (msgs.foldl add_received_message []) limit offset).total = msgs.length ∧
    (limit = (msgs.length : Int) ∧ offset = 0 →
      (get_messages (msgs.foldl add_received_message []) limit offset).messages = msgs) ∧
    ((msgs.length : Int) ≤ offset →
      (get_messages (msgs.foldl add_received_message []) limit offset).messages = []) := by
  rw [foldl_add_received_message, List.nil_append]
  refine ⟨?_, ?_, ?_, ?_⟩
  · exact pySlice_nonneg msgs offset limit ho hl
  · rfl
  · rintro ⟨hlim, hoff⟩
    show pySlice msgs offset (offset + limit) = msgs
    rw [pySlice_nonneg msgs offset limit ho hl, hoff]
    have : limit.toNat = msgs.length := by omega
    simp [this]
  · intro hge
    show pySlice msgs offset (offset + limit) = []
    rw [pySlice_nonneg msgs offset limit ho hl]
    rw [List.drop_eq_nil_of_le (by omega), List.take_nil]

/-- Witness for C9 on a concrete two-message store. -/
theorem get_messages_pagination_witness :
    (0 : Int) ≤ 2 ∧ (0 : Int) ≤ 0 ∧
    (get_messages ([sampleMsgA, sampleMsgB].foldl add_received_message []) 2 0).messages
      = [sampleMsgA, sampleMsgB] ∧
    (get_messages ([sampleMsgA, sampleMsgB].foldl add_received_message []) 2 0).total = 2 := by
  refine ⟨by norm_num, le_refl 0, ?_, ?_⟩
  · exact (get_messages_pagination [sampleMsgA, sampleMsgB] 2 0 (by norm_num) (le_refl 0)).2.2.1
      ⟨by norm_num, rfl⟩
  · exact (get_messages_pagination [sampleMsgA, sampleMsgB] 2 0 (by norm_num) (le_refl 0)).2.1

/-- Dropping all but one element of a non-empty list leaves exactly its
last element. -/
theorem drop_length_pred {α : Type} (xs : List α) (h : xs ≠ []) :
    xs.drop (xs.length - 1) = [xs.getLast h] := by
  induction xs with
  | nil => exact absurd rfl h
  | cons a as ih =>
    cases as with
    | nil => simp
    | cons b bs =>
      have hne : (b :: bs) ≠ [] := by simp
      have hlen : (a :: b :: bs).length - 1 = ((b :: bs).length - 1) + 1 := by
        simp [List.length_cons]
      rw [hlen, List.drop_succ_cons, ih hne, List.getLast_cons hne]

/-- C10: with a negative offset `get_messages` is not an error and does
not return the `[offset, offset+limit)` window: the slice follows Python
slice semantics (negative indices count from the end), so `offset = -1`
returns the last stored message when `limit` exceeds the store size and
the empty list otherwise — never more than the last message — while
`total` still reports the full store size. -/
theorem get_messages_negative_offset (store : List ReceivedMessage) (h : store ≠ [])
    (limit : Int) :
    (∀ offset : Int, offset < 0 →
        (get_messages store limit offset).total = store.length ∧
        (get_messages store limit offset).messages = pySlice store offset (offset + limit)) ∧
    (get_messages store limit (-1)).messages
      = (if (store.length : Int) < limit then [store.getLast h] else []) := by
  have hn : 0 < store.length := List.length_pos.mpr h
  constructor
  · intro offset _
    exact ⟨rfl, rfl⟩
  · show (store.drop (pyIdx store.length (-1))).take
        (pyIdx store.length (-1 + limit) - pyIdx store.length (-1)) = _
    have hs : pyIdx store.length (-1) = store.length - 1 := by
      simp only [pyIdx]
      rw [if_pos (by norm_num)]
      omega
    rw [hs]
    by_cases hlim : (store.length : Int) < limit
    · have he : pyIdx store.length (-1 + limit) = store.length := by
        simp only [pyIdx]
        rw [if_neg (by omega)]
        omega
      rw [he, if_pos hlim]
      have h1 : store.length - (store.length - 1) = 1 := by omega
      rw [h1, drop_length_pred store h]
      rfl
    · have he : pyIdx store.length (-1 + limit) - (store.length - 1) = 0 := by
        simp only [pyIdx]
        split_ifs with hneg
        · omega
        · omega
      rw [he, if_neg hlim, List.take_zero]

/-- Witness for C10: a two-message store, the route's default
`limit = 50` and `offset = -1` return only the last message with
`total = 2`. -/
theorem get_messages_negative_offset_witness :
    ([sampleMsgA, sampleMsgB] : List ReceivedMessage) ≠ [] ∧ (-1 : Int) < 0 ∧
    (get_messages [sampleMsgA, sampleMsgB] 50 (-1)).total = 2 ∧
    (get_messages [sampleMsgA, sampleMsgB] 50 (-1)).messages = [sampleMsgB] := by
  have hne : ([sampleMsgA, sampleMsgB] : List ReceivedMessage) ≠ [] := by simp
  have h := get_messages_negative_offset [sampleMsgA, sampleMsgB] hne 50
  refine ⟨hne, by norm_num, (h.1 (-1) (by norm_num)).1, ?_⟩
  have h2 := h.2
  rw [if_pos (by norm_num)] at h2
  simpa using h2

/-- Content extraction on a "text"-typed message. -/
theorem extractContent_text (message tObj : Json) (body : String)
    (htobj : pyGet message "text" (.obj []) = some tObj)
    (hbody : pyGet tObj "body" (.str "") = some (.str body)) :
    extractContent message (.str "text") = some (some (.str body), none, none) := by
  simp [extractContent, pyEqStr, htobj, hbody]

/-- Content extraction on an unrecognized type string leaves all three
values `None`. -/
theorem extractContent_unknown (message : Json) (t : String)
    (h1 : t ≠ "text") (h2 : t ≠ "audio") (h3 : t ≠ "document")
    (h4 : t ≠ "image") (h5 : t ≠ "video") :
    extractContent message (.str t) = some (none, none, none) := by
  simp [extractContent, pyEqStr, h1, h2, h3, h4, h5]

/-- C1 counterexample: a webhook payload whose message omits `id` and
`from` is normalized with both fields defaulted to the empty string and
is appended to the store anyway — the stored message has an empty
`message_id` and `from_number`, refuting the non-emptiness invariant. -/
theorem stored_message_empty_id_counterexample :
    ((receive_webhook [] (some noIdPayload) 0).1).map ReceivedMessage.message_id = [""] ∧
    ((receive_webhook [] (some noIdPayload) 0).1).map ReceivedMessage.from_number = [""] ∧
    (receive_webhook [] (some noIdPayload) 0).2 = .jsonBody (.obj [("status", .str "ok")]) :=
  ⟨rfl, rfl, rfl⟩

/-- C1 (amended): a received message whose `type` is outside
{text, audio, document, image, video} is discarded at normalization and
never stored — but stored messages may carry an empty `message_id` or
`from_number`, since absent `id`/`from` fields default to the empty
string. -/
theorem unrecognized_type_never_stored (j : Json) (now : Int) (store : List ReceivedMessage)
    (msg : Json) (t : String)
    (hmsg : firstMessage j = some msg)
    (htype : pyGet msg "type" (.str "text") = some (.str t))
    (ht : messageTypeOfString t = none) :
    parse_webhook_message j now = none ∧
    (receive_webhook store (some j) now).1 = store := by
  have hobj : ∃ fs, msg = .obj fs := by
    cases msg <;> simp [pyGet] at htype ⊢
  obtain ⟨fs, rfl⟩ := hobj
  have ht1 : t ≠ "text" := by rintro rfl; simp [messageTypeOfString] at ht
  have ht2 : t ≠ "audio" := by rintro rfl; simp [messageTypeOfString] at ht
  have ht3 : t ≠ "document" := by rintro rfl; simp [messageTypeOfString] at ht
  have ht4 : t ≠ "image" := by rintro rfl; simp [messageTypeOfString] at ht
  have ht5 : t ≠ "video" := by rintro rfl; simp [messageTypeOfString] at ht
  have hcontent := extractContent_unknown (.obj fs) t ht1 ht2 ht3 ht4 ht5
  simp only [pyGet, Option.some.injEq] at htype
  have hparse : parse_webhook_message j now = none := by
    simp only [parse_webhook_message, hmsg, Option.some_bind, pyGet, htype, hcontent,
               buildReceived, ht, Option.none_bind]
  exact ⟨hparse, by simp [receive_webhook, hparse]⟩

/-- Witness for C1's amended theorem: a "sticker" message is parsed to
nothing and leaves a one-message store unchanged. -/
theorem unrecognized_type_never_stored_witness :
    parse_webhook_message stickerPayload 7 = none ∧
    (receive_webhook [sampleMsgA] (some stickerPayload) 7).1 = [sampleMsgA] :=
  unrecognized_type_never_stored stickerPayload 7 [sampleMsgA]
    (.obj [("id", .str "m2"), ("from", .str "15550001"),
           ("timestamp", .str "1700000000"), ("type", .str "sticker")])
    "sticker" rfl rfl rfl

/-- C2 counterexample: an HTTP 4xx/5xx provider response and a transport
failure produce the very same exception value — the source raises the
bare `Exception` type on both paths, so the caller cannot distinguish
the two failure kinds. -/
theorem send_failures_indistinguishable :
    send_text_message "15550001" "hi" (.statusError 500 "boom") 0 =
      send_text_message "15550001" "hi" (.transport "boom") 0 ∧
    send_text_message "15550001" "hi" (.statusError 500 "boom") 0 =
      .exc "Failed to send message: boom" :=
  ⟨rfl, rfl⟩

/-- C2 (amended): on HTTP 4xx/5xx, `send_text_message` and
`send_media_message` fail with a generic `Exception` whose message is a
fixed prefix followed by the provider's raw error body; on transport
failure, with the same generic `Exception` carrying the transport error
text. The two failure kinds share one exception type and are not
distinguishable by the caller. -/
theorem send_failure_paths_generic_exception
    («to» text media_type media_url : String) (caption : Option String)
    (status : Nat) (body msg : String) (now : Int) :
    send_text_message «to» text (.statusError status body) now =
      .exc ("Failed to send message: " ++ body) ∧
    send_text_message «to» text (.transport msg) now =
      .exc ("Failed to send message: " ++ msg) ∧
    send_media_message «to» media_type media_url caption (.statusError status body) now =
      .exc ("Failed to send media message: " ++ body) ∧
    send_media_message «to» media_type media_url caption (.transport msg) now =
      .exc ("Failed to send media message: " ++ msg) :=
  ⟨rfl, rfl, rfl, rfl⟩

/-- C3: on a matching `mode`/token the challenge is echoed verbatim, but
on any mismatch the `HTTPException(403)` raised inside the `try` is
caught by the blanket `except Exception` and re-raised as a 500 — the
rejection reaches the provider as HTTP 500, not 403. -/
theorem verify_webhook_mismatch_returns_500 :
    verify_webhook "subscribe" "challenge-123" "wrong-token" "secret-token" =
      .httpError 500 "403: Forbidden" ∧
    verify_webhook "unsubscribe" "challenge-123" "secret-token" "secret-token" =
      .httpError 500 "403: Forbidden" ∧
    verify_webhook "subscribe" "challenge-123" "secret-token" "secret-token" =
      .plainText "challenge-123" :=
  ⟨rfl, rfl, rfl⟩

/-- C4: a send request of type text with no text content is answered
with HTTP 500, not a 4xx — the `HTTPException(400)` raised by the
validation check is caught by the route's `except Exception` and
re-raised as `HTTPException(500, "400: Text content is required for
text messages")`. -/
theorem send_message_missing_text_returns_500 :
    send_message { «to» := "15550001", message_type := .text, text := none,
                   media_url := none, media_caption := none } (.transport "unused") 0 =
      .httpError 500 "400: Text content is required for text messages" ∧
    send_message { «to» := "15550001", message_type := .text, text := some "",
                   media_url := none, media_caption := none } (.transport "unused") 0 =
      .httpError 500 "400: Text content is required for text messages" :=
  ⟨rfl, rfl⟩

/-- C5 counterexample: a POST body that is not valid JSON is answered
with `HTTPException(400, "Invalid JSON")` — a failure returned to the
provider, refuting "never returns a failure for every POST body". -/
theorem receive_webhook_invalid_json_rejected :
    (receive_webhook [] none 0).2 = .httpError 400 "Invalid JSON" ∧
    (receive_webhook [] none 0).1 = [] :=
  ⟨rfl, rfl⟩

/-- C5 (amended): every POST body that decodes as JSON — whatever its
shape — is acknowledged with `{"status":"ok"}`: all normalization
failures are absorbed and converted to "no message" (the store is left
unchanged, or extended by the one parsed message). A body that is not
valid JSON, however, is rejected with HTTP 400. -/
theorem receive_webhook_acknowledges_all_json
    (store : List ReceivedMessage) (data : Json) (now : Int) :
    (receive_webhook store (some data) now).2 = .jsonBody (.obj [("status", .str "ok")]) ∧
    ((receive_webhook store (some data) now).1 = store ∨
      ∃ m, parse_webhook_message data now = some m ∧
        (receive_webhook store (some data) now).1 = store ++ [m]) := by
  cases h : parse_webhook_message data now with
  | none => exact ⟨by simp [receive_webhook, h], Or.inl (by simp [receive_webhook, h])⟩
  | some m =>
    exact ⟨by simp [receive_webhook, h],
           Or.inr ⟨m, rfl, by simp [receive_webhook, add_received_message, h]⟩⟩

/-- C6: a webhook payload whose first message has type "text" with
string-valued `id`, `from`, `timestamp` and nested `text.body`
normalizes to exactly one message with status `delivered`, type `text`,
and text equal to the payload's `text.body`. -/
theorem parse_text_webhook_message (j : Json) (now : Int) (msg tObj : Json)
    (idv fromv tsv body : String)
    (hmsg : firstMessage j = some msg)
    (hid : pyGet msg "id" (.str "") = some (.str idv))
    (hfrom : pyGet msg "from" (.str "") = some (.str fromv))
    (hts : pyGet msg "timestamp" (.str "") = some (.str tsv))
    (htype : pyGet msg "type" (.str "text") = some (.str "text"))
    (htobj : pyGet msg "text" (.obj []) = some tObj)
    (hbody : pyGet tObj "body" (.str "") = some (.str body)) :
    parse_webhook_message j now =
      some { message_id := idv, from_number := fromv, message_type := .text,
             text := some body, media_url := none, media_id := none,
             timestamp := (pyInt (.str tsv)).getD now, status := .delivered } := by
  have hcontent := extractContent_text msg tObj body htobj hbody
  simp only [parse_webhook_message, hmsg, Option.some_bind, hid, hfrom, hts, htype, hcontent]
  rfl

/-- Witness for C6 on the spec's scenario payload. -/
theorem parse_text_webhook_message_witness :
    parse_webhook_message textScenarioPayload 42 =
      some { message_id := "m1", from_number := "15550001", message_type := .text,
             text := some "hi", media_url := none, media_id := none,
             timestamp := 1700000000, status := .delivered } := by
  have h := parse_text_webhook_message textScenarioPayload 42
      (.obj [("id", .str "m1"), ("from", .str "15550001"),
             ("timestamp", .str "1700000000"), ("type", .str "text"),
             ("text", .obj [("body", .str "hi")])])
      (.obj [("body", .str "hi")])
      "m1" "15550001" "1700000000" "hi" rfl rfl rfl rfl rfl rfl rfl
  rw [h]
  decide

/-- C7: a webhook payload whose first message has a media type reads the
type-named nested object: `media_id` from its `id`, `media_url` from its
`link`, and text from its `caption`, the empty string standing in for
each absent field (the `pyGet` defaults). -/
theorem parse_media_webhook_message (j : Json) (now : Int) (msg mObj : Json)
    (idv fromv tsv t mid murl cap : String)
    (hmsg : firstMessage j = some msg)
    (hid : pyGet msg "id" (.str "") = some (.str idv))
    (hfrom : pyGet msg "from" (.str "") = some (.str fromv))
    (hts : pyGet msg "timestamp" (.str "") = some (.str tsv))
    (htype : pyGet msg "type" (.str "text") = some (.str t))
    (ht : t = "audio" ∨ t = "document" ∨ t = "image" ∨ t = "video")
    (hmobj : pyGet msg t (.obj []) = some mObj)
    (hmid : pyGet mObj "id" (.str "") = some (.str mid))
    (hlink : pyGet mObj "link" (.str "") = some (.str murl))
    (hcap : pyGet mObj "caption" (.str "") = some (.str cap)) :
    parse_webhook_message j now =
      some { message_id := idv, from_number := fromv,
             message_type := (messageTypeOfString t).getD .text,
             text := some cap, media_url := some murl, media_id := some mid,
             timestamp := (pyInt (.str tsv)).getD now, status := .delivered } := by
  rcases ht with rfl | rfl | rfl | rfl
  · have hcontent : extractContent msg (.str "audio")
        = some (some (.str cap), some (.str murl), some (.str mid)) := by
      simp [extractContent, pyEqStr, hmobj, hmid, hlink, hcap]
    simp only [parse_webhook_message, hmsg, Option.some_bind, hid, hfrom, hts, htype, hcontent]
    rfl
  · have hcontent : extractContent msg (.str "document")
        = some (some (.str cap), some (.str murl), some (.str mid)) := by
      simp [extractContent, pyEqStr, hmobj, hmid, hlink, hcap]
    simp only [parse_webhook_message, hmsg, Option.some_bind, hid, hfrom, hts, htype, hcontent]
    rfl
  · have hcontent : extractContent msg (.str "image")
        = some (some (.str cap), some (.str murl), some (.str mid)) := by
      simp [extractContent, pyEqStr, hmobj, hmid, hlink, hcap]
    simp only [parse_webhook_message, hmsg, Option.some_bind, hid, hfrom, hts, htype, hcontent]
    rfl
  · have hcontent : extractContent msg (.str "video")
        = some (some (.str cap), some (.str murl), some (.str mid)) := by
      simp [extractContent, pyEqStr, hmobj, hmid, hlink, hcap]
    simp only [parse_webhook_message, hmsg, Option.some_bind, hid, hfrom, hts, htype, hcontent]
    rfl

/-- Witness for C7: an image payload carrying only the nested `id`
normalizes with `media_url` and text defaulted to the empty string. -/
theorem parse_media_webhook_message_witness :
    parse_webhook_message imageScenarioPayload 42 =
      some { message_id := "m3", from_number := "15550001", message_type := .image,
             text := some "", media_url := some "", media_id := some "media9",
             timestamp := 1700000001, status := .delivered } := by
  have h := parse_media_webhook_message imageScenarioPayload 42
      (.obj [("id", .str "m3"), ("from", .str "15550001"),
             ("timestamp", .str "1700000001"), ("type", .str "image"),
             ("image", .obj [("id", .str "media9")])])
      (.obj [("id", .str "media9")])
      "m3" "15550001" "1700000001" "image" "media9" "" ""
      rfl rfl rfl rfl rfl (Or.inr (Or.inr (Or.inl rfl))) rfl rfl rfl rfl
  rw [h]
  decide

/-- C8: with a non-empty caption the outbound media payload attaches a
`caption` key inside the type-named object for document/image/video and
never for audio; the payload otherwise has exactly the shape
`{messaging_product, to, type: media_type, media_type: {link: media_url}}`. -/
theorem send_media_caption_policy («to» media_url c : String) (hc : c ≠ "") :
    (∀ mt, mt = "document" ∨ mt = "image" ∨ mt = "video" →
      send_media_payload «to» mt media_url (some c) =
        .obj [("messaging_product", .str "whatsapp"), ("to", .str «to»),
              ("type", .str mt),
              (mt, .obj [("link", .str media_url), ("caption", .str c)])]) ∧
    send_media_payload «to» "audio" media_url (some c) =
      .obj [("messaging_product", .str "whatsapp"), ("to", .str «to»),
            ("type", .str "audio"), ("audio", .obj [("link", .str media_url)])] := by
  constructor
  · rintro mt (rfl | rfl | rfl) <;> simp [send_media_payload, hc]
  · simp [send_media_payload]

/-- Witness for C8: the same non-empty caption is attached for an image
and omitted for audio. -/
theorem send_media_caption_policy_witness :
    ("cap" : String) ≠ "" ∧
    send_media_payload "15550001" "image" "http://host/f" (some "cap") =
      .obj [("messaging_product", .str "whatsapp"), ("to", .str "15550001"),
            ("type", .str "image"),
            ("image", .obj [("link", .str "http://host/f"), ("caption", .str "cap")])] ∧
    send_media_payload "15550001" "audio" "http://host/f" (some "cap") =
      .obj [("messaging_product", .str "whatsapp"), ("to", .str "15550001"),
            ("type", .str "audio"), ("audio", .obj [("link", .str "http://host/f")])] := by
  have h := send_media_caption_policy "15550001" "http://host/f" "cap" (by decide)
  exact ⟨by decide, h.1 "image" (Or.inr (Or.inl rfl)), h.2⟩

end WhatsappUtil
